import Mathlib

/-!
Shallow embedding of the liquidbounce_lite sources
(`src/lib.rs`, `src/sdk/jni.rs`, `src/sdk/game/mod.rs`).

Machine pointers are modelled as `Option Nat` (`none` is the null
pointer), doubles as exact rationals, and the external world (the host
process, the JVM runtime library, the JNI environment, the mapping
file) as explicit parameters.  Functions that perform observable
actions additionally return a trace of the steps they took, so that
claims about which steps run (and in which cases) are statable.
-/

namespace LiquidBounce

/-- Errors that actually occur in the Rust sources, as `anyhow::Error`
payloads: a Win32 error code from `GetModuleHandleA`, or an error of
the `jni` crate.  The `jni` crate errors used by this code are
`NullPtr` (from `JavaVM::from_raw` on a null pointer), `JavaException`
(a managed call threw), `WrongJValueType` (a `JValueGen` accessor such
as `.l()` or `.d()` applied to the wrong variant) and an attach
failure from `attach_current_thread_as_daemon`. -/
inductive JniError
  | NullPtr
  | JavaException
  | WrongJValueType
  | AttachFail
  deriving Repr, DecidableEq

/-- Top-level error type of a `Result<_, anyhow::Error>` in this code. -/
inductive RtError
  | winError (code : Nat)
  | jni (e : JniError)
  deriving Repr, DecidableEq

/-- Outcome of running a fallible native function: a normal return, an
error return through `Result`, or a crash (undefined behaviour, e.g. a
call through a null function pointer). -/
inductive Outcome (α : Type)
  | ok (a : α)
  | err (e : RtError)
  | crash (msg : String)
  deriving Repr, DecidableEq

/-- Observable steps taken by `retrieve_java_vm` / `start_client`
while locating the JVM (`src/sdk/jni.rs`, `src/lib.rs`). -/
inductive VmStep
  | getModuleHandle
  | getProcAddress
  | invokeGetCreatedVMs
  | fromRaw (ptr : Option Nat)
  | attachDaemon
  deriving Repr, DecidableEq

/-- A run paired with the trace of steps it performed. -/
structure RunResult (α : Type) where
  trace : List VmStep
  out : Outcome α
  deriving Repr, DecidableEq

/-- The external world as observed by one run of `retrieve_java_vm`:
the result of `GetModuleHandleA("jvm.dll")`, the address returned by
`GetProcAddress(_, "JNI_GetCreatedJavaVMs")` (`none` when the export
is absent), the behaviour of the one call made to the enumeration
function with `buf_len = 1` (the VM pointer it writes into the buffer,
if any, the count it reports, and its return code), and whether
`attach_current_thread_as_daemon` succeeds. -/
structure JvmWorld where
  jvmModule : Except Nat Nat
  getCreatedVMsAddr : Option Nat
  enumWritten : Option Nat
  enumCount : Int
  enumCode : Int
  attachOk : Bool
  deriving Repr

/-- Embedding of `retrieve_java_vm` (`src/sdk/jni.rs`, lines 17-40).
The code resolves `jvm.dll`, resolves `JNI_GetCreatedJavaVMs` and
`transmute`s the `Option` function pointer into a bare function
pointer without checking it (so an absent export becomes a call
through a null function pointer, i.e. a crash), invokes the
enumeration with a single-slot buffer whose slot starts out null,
and then — without consulting `number_of_jvms` — passes whatever is in
the buffer to `JavaVM::from_raw` and attaches the thread as a daemon.
`JavaVM::from_raw` errors with `NullPtr` on a null pointer. -/
def retrieve_java_vm (w : JvmWorld) : RunResult Nat :=
  match w.jvmModule with
  | .error code => ⟨[.getModuleHandle], .err (.winError code)⟩
  | .ok _ =>
    match w.getCreatedVMsAddr with
    | none =>
      ⟨[.getModuleHandle, .getProcAddress, .invokeGetCreatedVMs],
        .crash "call through null function pointer"⟩
    | some _ =>
      let buf := w.enumWritten
      match buf with
      | none =>
        ⟨[.getModuleHandle, .getProcAddress, .invokeGetCreatedVMs, .fromRaw none],
          .err (.jni .NullPtr)⟩
      | some p =>
        if w.attachOk then
          ⟨[.getModuleHandle, .getProcAddress, .invokeGetCreatedVMs,
              .fromRaw (some p), .attachDaemon], .ok p⟩
        else
          ⟨[.getModuleHandle, .getProcAddress, .invokeGetCreatedVMs,
              .fromRaw (some p), .attachDaemon], .err (.jni .AttachFail)⟩

/-- The remap table of the external `yarn_remapper` crate, modelled as
the lookup service with a fixed interface that the spec declares it to
be: association lists keyed the way the `remap_*` calls in
`src/sdk/game/mod.rs` key them (class name; class, method name,
descriptor; class, field name, descriptor).  A lookup returns `none`
when no entry matches. -/
structure Mapping where
  classMap : List (String × String)
  methodMap : List ((String × String × String) × String)
  fieldMap : List ((String × String × String) × String)
  deriving Repr, DecidableEq

/-- Lookup behind `MAPPINGS.remap_class(name)`. -/
def Mapping.remap_class (m : Mapping) (c : String) : Option String :=
  (m.classMap.find? (fun p => p.1 == c)).map (·.2)

/-- Lookup behind `MAPPINGS.remap_method(class, name, sig)`. -/
def Mapping.remap_method (m : Mapping) (c mth sig : String) : Option String :=
  (m.methodMap.find? (fun p => p.1 == (c, mth, sig))).map (·.2)

/-- Lookup behind `MAPPINGS.remap_field(class, name, sig)`. -/
def Mapping.remap_field (m : Mapping) (c fld sig : String) : Option String :=
  (m.fieldMap.find? (fun p => p.1 == (c, fld, sig))).map (·.2)

/-- The class name the `class!` macro passes to `env.find_class`
(`src/sdk/game/mod.rs` lines 14-18):
`MAPPINGS.remap_class(class).unwrap_or(class.to_string())`. -/
def class_name_passed (m : Mapping) (c : String) : String :=
  (m.remap_class c).getD c

/-- The method name the `call_method!` / `call_static_method!` macros
pass to the JNI call (`src/sdk/game/mod.rs` lines 30-50):
`MAPPINGS.remap_method(class, method, sig).unwrap_or(method.to_string())`. -/
def method_name_passed (m : Mapping) (c mth sig : String) : String :=
  (m.remap_method c mth sig).getD mth

/-- The field name the `get_field!` / `get_static_field!` macros pass
to the JNI call (`src/sdk/game/mod.rs` lines 52-70):
`MAPPINGS.remap_field(class, field, sig).unwrap_or(field.to_string())`. -/
def field_name_passed (m : Mapping) (c fld sig : String) : String :=
  (m.remap_field c fld sig).getD fld

/-- A `JValueGen` of the `jni` crate as used by this code: an object
reference (possibly null, hence `Option Nat`), a double, a boolean,
or void. -/
inductive JValue
  | obj (r : Option Nat)
  | double (d : Rat)
  | bool (b : Bool)
  | voidVal
  deriving Repr, DecidableEq

/-- The `jni` crate's `JValueGen::l()`: succeeds on any object
variant, including a null reference, and fails with a wrong-type
error otherwise.  It does not reject null. -/
def JValue.l : JValue → Except JniError (Option Nat)
  | .obj r => .ok r
  | _ => .error .WrongJValueType

/-- The `jni` crate's `JValueGen::d()`. -/
def JValue.d : JValue → Except JniError Rat
  | .double x => .ok x
  | _ => .error .WrongJValueType

/-- The `jni` crate's `JValueGen::z()`. -/
def JValue.z : JValue → Except JniError Bool
  | .bool b => .ok b
  | _ => .error .WrongJValueType

/-- Wrapper `MinecraftClient` (`src/sdk/game/mod.rs` lines 72-76):
holds the managed object reference returned by the `getInstance`
call, which may be null. -/
structure MinecraftClient where
  mc : Option Nat
  deriving Repr, DecidableEq

/-- Wrapper `ClientPlayerEntity` (lines 98-102). -/
structure ClientPlayerEntity where
  jobj : Option Nat
  deriving Repr, DecidableEq

/-- Wrapper `Entity` (lines 112-116). -/
structure Entity where
  entity : Option Nat
  deriving Repr, DecidableEq

/-- Wrapper `Vec3d` (lines 177-181). -/
structure Vec3d where
  jobj : Option Nat
  deriving Repr, DecidableEq

/-- Wrapper `Position` (lines 224-228). -/
structure Position where
  jobj : Option Nat
  deriving Repr, DecidableEq

/-- A managed-side operation performed through the JNI environment. -/
inductive ManagedOp
  | findClass (cls : String)
  | callStaticMethod (cls mth sig : String)
  | callMethod (cls mth sig : String)
  | getField (cls fld sig : String)
  | newObject (cls sig : String)
  deriving Repr, DecidableEq

/-- Embedding of `MinecraftClient::get_instance` (lines 80-87).  The
result of the managed `call_static_method` (which errors iff the call
throws) is the parameter; the code then applies `.l()` and wraps
whatever reference comes back — null included — in a
`MinecraftClient`. -/
def MinecraftClient.get_instance (callRes : Except JniError JValue) :
    Except JniError MinecraftClient := do
  let mc ← callRes
  let mc_obj ← mc.l
  pure ⟨mc_obj⟩

/-- Embedding of `MinecraftClient::get_player` (lines 89-94).  The
result of the managed `get_field` read of the `player` field is the
parameter; the code applies `.l()` and wraps the reference — null
included — in a `ClientPlayerEntity`. -/
def MinecraftClient.get_player (_self : MinecraftClient)
    (fieldRes : Except JniError JValue) :
    Except JniError ClientPlayerEntity := do
  let player_obj ← (← fieldRes).l
  pure ⟨player_obj⟩

/-- Embedding of `ClientPlayerEntity::as_entity` (lines 106-109): a
pure reinterpretation constructing an `Entity` around the same
`jobj`; no managed operation is performed and the result is always
`Ok`. -/
def ClientPlayerEntity.as_entity (p : ClientPlayerEntity) :
    List ManagedOp × Except JniError Entity :=
  ([], .ok ⟨p.jobj⟩)

/-- Embedding of `Vec3d::as_position` (lines 216-219): a pure
reinterpretation constructing a `Position` around the same `jobj`. -/
def Vec3d.as_position (v : Vec3d) : List ManagedOp × Except JniError Position :=
  ([], .ok ⟨v.jobj⟩)

/-- Embedding of `Entity::get_velocity` (lines 146-150), with the
managed call's result as parameter and the operation it performs in
the trace (names as remapped by `call_method!` under mapping `m`). -/
def Entity.get_velocity (_self : Entity) (m : Mapping)
    (callRes : Except JniError JValue) :
    List ManagedOp × Except JniError Vec3d :=
  ([.callMethod (class_name_passed m "net/minecraft/entity/Entity")
      (method_name_passed m "net/minecraft/entity/Entity" "getVelocity"
        "()Lnet/minecraft/util/math/Vec3d;")
      "()Lnet/minecraft/util/math/Vec3d;"],
    do pure ⟨← (← callRes).l⟩)

/-- Embedding of `Entity::is_on_ground` (lines 167-170). -/
def Entity.is_on_ground (_self : Entity) (m : Mapping)
    (callRes : Except JniError JValue) :
    List ManagedOp × Except JniError Bool :=
  ([.callMethod (class_name_passed m "net/minecraft/entity/Entity")
      (method_name_passed m "net/minecraft/entity/Entity" "isOnGround" "()Z")
      "()Z"],
    do pure (← (← callRes).z))

/-- Embedding of `Vec3d::new_obj` (lines 186-190): allocates a new
managed vector through the `new!` macro. -/
def Vec3d.new_obj (m : Mapping) (allocRes : Except JniError Nat)
    (_x _y _z : Rat) : List ManagedOp × Except JniError Vec3d :=
  ([.findClass (class_name_passed m "net/minecraft/util/math/Vec3d"),
    .newObject (class_name_passed m "net/minecraft/util/math/Vec3d") "(DDD)V"],
    do pure ⟨some (← allocRes)⟩)

/-- State of the `lazy_static!` cell holding `MAPPINGS`
(`src/sdk/game/mod.rs` lines 9-12): not yet touched, holding the
parsed table, or poisoned because the first access panicked. -/
inductive MappingsState
  | uninit
  | ready (m : Mapping)
  | poisoned
  deriving Repr, DecidableEq

/-- What one access to `MAPPINGS` yields: the table, or the fatal
mapping-load failure (the `unwrap()` panic on the first access when
`parse_tiny_v2("mappings.tiny")` fails, and the poisoned-`Once` panic
on every later access). -/
inductive MappingsAccess
  | table (m : Mapping)
  | mappingLoadError
  deriving Repr, DecidableEq

/-- One access to the `MAPPINGS` `lazy_static!` cell.  `parse` is the
result `parse_tiny_v2(Path::new("mappings.tiny"))` would produce if
run now.  On the first access the cell runs the initializer:
`parse_tiny_v2(..).unwrap()` stores the table on success and panics
(poisoning the cell) on failure.  Afterwards the stored table is
returned without re-reading the file, and a poisoned cell fails every
later access without retrying the parse. -/
def mappings_access (parse : Except String Mapping) :
    MappingsState → MappingsState × MappingsAccess
  | .uninit =>
    match parse with
    | .ok m => (.ready m, .table m)
    | .error _ => (.poisoned, .mappingLoadError)
  | .ready m => (.ready m, .table m)
  | .poisoned => (.poisoned, .mappingLoadError)

/-- Windows `DLL_PROCESS_ATTACH` reason code. -/
def DLL_PROCESS_ATTACH : Nat := 1

/-- Windows `DLL_PROCESS_DETACH` reason code. -/
def DLL_PROCESS_DETACH : Nat := 0

/-- Actions `DllMain` can perform on its thread: spawning the
background thread running `main_thread`, or joining/waiting on it
(which the code never does). -/
inductive DllAction
  | spawn_main_thread
  | join_main_thread
  deriving Repr, DecidableEq

/-- Embedding of `DllMain` (`src/lib.rs` lines 91-109): on
`DLL_PROCESS_ATTACH` it spawns one thread running `main_thread`; on
`DLL_PROCESS_DETACH` and on any other reason it does nothing; it
always returns `true`. -/
def DllMain (call_reason : Nat) : List DllAction × Bool :=
  if call_reason = DLL_PROCESS_ATTACH then
    ([.spawn_main_thread], true)
  else
    ([], true)

/-- Actions performed by `main_thread` (`src/lib.rs` lines 23-45), in
order: install the tracing subscriber, call `AllocConsole`, log a
console-allocation error, call `start_client`, log a client-start
error, call `FreeConsole`. -/
inductive MainAction
  | setupLogging
  | allocConsole
  | logAllocError (code : Nat)
  | runStartClient
  | logStartError (e : RtError)
  | freeConsole
  deriving Repr, DecidableEq

/-- Embedding of `main_thread` (`src/lib.rs` lines 23-45).  `allocRes`
is the result of `AllocConsole`, `startRes` the result of
`start_client()`.  Each failure is logged with `error!` and execution
continues; `FreeConsole`'s result is discarded with `let _ =`; the
function then returns normally (outcome `.ok ()` — errors are never
propagated since the signature returns no `Result`). -/
def main_thread (allocRes : Except Nat Unit) (startRes : Except RtError Unit) :
    List MainAction × Outcome Unit :=
  ([MainAction.setupLogging, .allocConsole]
    ++ (match allocRes with
        | .error code => [MainAction.logAllocError code]
        | .ok _ => [])
    ++ [MainAction.runStartClient]
    ++ (match startRes with
        | .error e => [MainAction.logStartError e]
        | .ok _ => [])
    ++ [MainAction.freeConsole],
    .ok ())

/-- A velocity / kinematic sample: three double components, modelled
exactly over the rationals. -/
structure Vel where
  x : Rat
  y : Rat
  z : Rat
  deriving Repr, DecidableEq

/-- Modelled from the spec: the Poll Loop decision rule (spec section
4.5).  The poll loop that reads `is_on_ground` and rewrites the
velocity is not present under `src/` (the three files there are
bootstrap/SDK snapshots that stop before the loop), so the rule is
taken from the spec's words: grounded sets velocity to
`(vx * 2.0, 0.42, vz * 2.0)`; airborne sets it to
`(vx * 1.1, vy, vz * 1.1)`. -/
def poll_decision_rule (on_ground : Bool) (v : Vel) : Vel :=
  if on_ground then
    ⟨v.x * 2, 42 / 100, v.z * 2⟩
  else
    ⟨v.x * (11 / 10), v.y, v.z * (11 / 10)⟩

/-- One call site in the sources where a name crosses into the
managed runtime via a JNI environment call: which file and function
it is in, which JNI entry it invokes, and whether the names it passes
go through the `MAPPINGS` remapper (the `class!` / `new!` /
`call_method!` / `call_static_method!` / `get_field!` /
`get_static_field!` macros) before the call. -/
structure CallSite where
  file : String
  inFn : String
  jniCall : String
  remapped : Bool
  deriving Repr, DecidableEq

/-- Inventory of every managed-call boundary in the sources.  The two
sites in `start_client` (`src/lib.rs` lines 78 and 82) pass raw
string literals directly to `find_class` / `get_static_field_id`;
every site in `src/sdk/game/mod.rs` goes through a remapping macro
(each `call_static_method!` and `new!` use also expands to a `class!`
lookup, listed separately). -/
def managedCallSites : List CallSite :=
  [⟨"src/lib.rs", "start_client", "find_class", false⟩,
   ⟨"src/lib.rs", "start_client", "get_static_field_id", false⟩,
   ⟨"src/sdk/game/mod.rs", "MinecraftClient::get_instance", "find_class", true⟩,
   ⟨"src/sdk/game/mod.rs", "MinecraftClient::get_instance", "call_static_method", true⟩,
   ⟨"src/sdk/game/mod.rs", "MinecraftClient::get_player", "get_field", true⟩,
   ⟨"src/sdk/game/mod.rs", "Entity::get_pos", "call_method", true⟩,
   ⟨"src/sdk/game/mod.rs", "Entity::get_x", "call_method", true⟩,
   ⟨"src/sdk/game/mod.rs", "Entity::get_y", "call_method", true⟩,
   ⟨"src/sdk/game/mod.rs", "Entity::get_z", "call_method", true⟩,
   ⟨"src/sdk/game/mod.rs", "Entity::get_velocity", "call_method", true⟩,
   ⟨"src/sdk/game/mod.rs", "Entity::set_velocity", "call_method", true⟩,
   ⟨"src/sdk/game/mod.rs", "Entity::add_velocity", "call_method", true⟩,
   ⟨"src/sdk/game/mod.rs", "Entity::is_on_ground", "call_method", true⟩,
   ⟨"src/sdk/game/mod.rs", "Vec3d::new_obj", "find_class", true⟩,
   ⟨"src/sdk/game/mod.rs", "Vec3d::new_obj", "new_object", true⟩,
   ⟨"src/sdk/game/mod.rs", "Vec3d::normalize", "call_method", true⟩,
   ⟨"src/sdk/game/mod.rs", "Vec3d::add", "call_method", true⟩,
   ⟨"src/sdk/game/mod.rs", "Vec3d::add_xyz", "call_method", true⟩,
   ⟨"src/sdk/game/mod.rs", "Position::get_x", "call_method", true⟩,
   ⟨"src/sdk/game/mod.rs", "Position::get_y", "call_method", true⟩,
   ⟨"src/sdk/game/mod.rs", "Position::get_z", "call_method", true⟩]

/-- Iterate accesses to the `MAPPINGS` cell over a list of would-be
parse results, collecting what each access yields. -/
def mappings_run : List (Except String Mapping) → MappingsState →
    MappingsState × List MappingsAccess
  | [], s => (s, [])
  | p :: ps, s =>
    let step := mappings_access p s
    let rest := mappings_run ps step.1
    (rest.1, step.2 :: rest.2)

/-- C1: the poll-loop decision rule is a deterministic function of the
on-ground flag and the current velocity: grounded output is
`(vx * 2, 0.42, vz * 2)`, airborne output is `(vx * 1.1, vy, vz * 1.1)`;
at `(2, y, 3)` grounded the output is `(4, 0.42, 6)` and at
`(2, 5, 3)` airborne it is `(2.2, 5, 3.3)`. -/
theorem poll_decision_rule_spec :
    (∀ vx y vz : Rat, poll_decision_rule true ⟨vx, y, vz⟩ = ⟨vx * 2, 42 / 100, vz * 2⟩)
    ∧ (∀ vx vy vz : Rat, poll_decision_rule false ⟨vx, vy, vz⟩ =
        ⟨vx * (11 / 10), vy, vz * (11 / 10)⟩)
    ∧ (∀ y : Rat, poll_decision_rule true ⟨2, y, 3⟩ = ⟨4, (0.42 : Rat), 6⟩)
    ∧ poll_decision_rule false ⟨2, 5, 3⟩ = ⟨(2.2 : Rat), 5, (3.3 : Rat)⟩ := by
  refine ⟨fun vx y vz => rfl, fun vx vy vz => rfl, fun y => ?_, ?_⟩ <;>
    simp only [poll_decision_rule, if_true, if_false, Vel.mk.injEq] <;>
    norm_num

/-- C2 counterexample: in a run where the enumeration call reports
zero VM instances (and accordingly writes nothing into the
single-slot buffer), `retrieve_java_vm` does invoke the VM-wrapping
step `JavaVM::from_raw` — on the still-null buffer — and returns that
step's null-pointer error, not a `NoVmInstances` error (no such error
exists in the code). -/
theorem retrieve_java_vm_zero_vms_cex :
    VmStep.fromRaw none ∈ (retrieve_java_vm ⟨.ok 7, some 12, none, 0, 0, true⟩).trace
    ∧ (retrieve_java_vm ⟨.ok 7, some 12, none, 0, 0, true⟩).out = .err (.jni .NullPtr) := by
  constructor
  · decide
  · rfl

/-- C2 amended: when the enumeration call writes nothing into the
buffer (as it does whenever it reports zero instances, the count
being ignored by the code), `retrieve_java_vm` does not crash but
proceeds to the VM-wrapping step, invoking `JavaVM::from_raw` on the
null pointer, and returns the `NullPtr` error from that step; the
thread-attach step is not reached. -/
theorem retrieve_java_vm_zero_vms (h addr : Nat) (cnt code : Int) (att : Bool) :
    retrieve_java_vm ⟨.ok h, some addr, none, cnt, code, att⟩ =
      ⟨[.getModuleHandle, .getProcAddress, .invokeGetCreatedVMs, .fromRaw none],
        .err (.jni .NullPtr)⟩ :=
  rfl

/-- C3: when a class, method, or field name has no entry in the remap
table, the name passed to the underlying JNI call by the remapping
macros is the original input name unchanged. -/
theorem remap_identity_fallback (m : Mapping) (c mth fld sig : String)
    (hc : m.remap_class c = none)
    (hm : m.remap_method c mth sig = none)
    (hf : m.remap_field c fld sig = none) :
    class_name_passed m c = c
    ∧ method_name_passed m c mth sig = mth
    ∧ field_name_passed m c fld sig = fld := by
  simp [class_name_passed, method_name_passed, field_name_passed, hc, hm, hf]

/-- Witness for C3 at a concrete empty table and concrete names. -/
theorem remap_identity_fallback_witness :
    class_name_passed ⟨[], [], []⟩ "net/minecraft/entity/Entity" = "net/minecraft/entity/Entity"
    ∧ method_name_passed ⟨[], [], []⟩ "net/minecraft/entity/Entity" "getPos" "()Lnet/minecraft/util/math/Vec3d;" = "getPos"
    ∧ field_name_passed ⟨[], [], []⟩ "net/minecraft/entity/Entity" "player" "()Lnet/minecraft/util/math/Vec3d;" = "player" :=
  remap_identity_fallback ⟨[], [], []⟩ "net/minecraft/entity/Entity" "getPos" "player"
    "()Lnet/minecraft/util/math/Vec3d;" rfl rfl rfl

/-- C4 counterexample: when the managed `getInstance` call returns a
null object reference, `get_instance` succeeds and returns a
`MinecraftClient` wrapping the null reference (the `jni` crate's
`.l()` accepts null); likewise `get_player` wraps a null `player`
field value instead of failing. -/
theorem get_instance_null_wraps_cex :
    MinecraftClient.get_instance (.ok (.obj none)) = .ok ⟨none⟩
    ∧ MinecraftClient.get_player ⟨some 5⟩ (.ok (.obj none)) = .ok ⟨none⟩ := by
  constructor <;> rfl

/-- C4 amended: `get_instance` and `get_player` return an error
exactly when the managed call itself fails (throws) or yields a
non-object value; a returned object reference — null included — is
wrapped and returned as success. -/
theorem wrapper_error_on_throw_only :
    (∀ e, MinecraftClient.get_instance (.error e) = .error e)
    ∧ (∀ r, MinecraftClient.get_instance (.ok (.obj r)) = .ok ⟨r⟩)
    ∧ (∀ self e, MinecraftClient.get_player self (.error e) = .error e)
    ∧ (∀ self r, MinecraftClient.get_player self (.ok (.obj r)) = .ok ⟨r⟩) :=
  ⟨fun _ => rfl, fun _ => rfl, fun _ _ => rfl, fun _ _ => rfl⟩

/-- C5 counterexample: in a run where the by-name lookup of
`JNI_GetCreatedJavaVMs` yields no symbol, `retrieve_java_vm` does not
return a `SymbolNotFound` error (no such error exists in the code):
it `transmute`s the absent (null) pointer into a function pointer and
proceeds to invoke it, which is a crash. -/
theorem absent_symbol_cex :
    (retrieve_java_vm ⟨.ok 7, none, none, 0, 0, true⟩).out =
      .crash "call through null function pointer"
    ∧ VmStep.invokeGetCreatedVMs ∈ (retrieve_java_vm ⟨.ok 7, none, none, 0, 0, true⟩).trace := by
  constructor
  · rfl
  · decide

/-- C5 amended: whenever the module handle resolves but the
`GetProcAddress` lookup yields no symbol, `retrieve_java_vm` performs
no check and calls through the null function pointer — undefined
behaviour, modelled as a crash — instead of returning any error. -/
theorem retrieve_java_vm_absent_symbol (h : Nat) (written : Option Nat)
    (cnt code : Int) (att : Bool) :
    retrieve_java_vm ⟨.ok h, none, written, cnt, code, att⟩ =
      ⟨[.getModuleHandle, .getProcAddress, .invokeGetCreatedVMs],
        .crash "call through null function pointer"⟩ :=
  rfl

/-- C6 counterexample: not every managed-call boundary passes its
names through the remapper — the `find_class` call in `start_client`
(`src/lib.rs` line 78) passes its raw string literal directly. -/
theorem call_sites_not_all_remapped_cex :
    CallSite.mk "src/lib.rs" "start_client" "find_class" false ∈ managedCallSites
    ∧ managedCallSites.all (fun s => s.remapped) = false :=
  ⟨List.Mem.head _, rfl⟩

/-- C6 amended: every managed-call boundary in the typed wrapper
layer (`src/sdk/game/mod.rs`) passes its names through the remapper,
but the two bootstrap boundaries in `start_client` (`src/lib.rs`) —
a class lookup and a static-field-id lookup — use raw names and
bypass the remapper. -/
theorem sdk_call_sites_remapped :
    (managedCallSites.filter (fun s => s.file == "src/sdk/game/mod.rs")).all
      (fun s => s.remapped) = true
    ∧ (managedCallSites.filter (fun s => s.file == "src/lib.rs")).all
      (fun s => !s.remapped) = true := by
  constructor <;> rfl

/-- C7: the `MAPPINGS` cell is initialized lazily exactly once from
the fixed-path mapping file: a successful first access stores the
parsed table, after which every access returns that same table and
the parse is never re-run (the stored state is independent of any
later parse result, hence never mutated); a failed first access is a
fatal `MappingLoadError`, the cell is poisoned, and every later
access fails with `MappingLoadError` regardless of what a re-parse
would yield — the load is never retried and no remapped call can
succeed afterwards. -/
theorem mappings_singleton_terminal :
    (∀ m, mappings_access (.ok m) .uninit = (.ready m, .table m))
    ∧ (∀ p m, mappings_access p (.ready m) = (.ready m, .table m))
    ∧ (∀ msg, mappings_access (.error msg) .uninit = (.poisoned, .mappingLoadError))
    ∧ (∀ p, mappings_access p .poisoned = (.poisoned, .mappingLoadError))
    ∧ (∀ m ps, (mappings_run ps (.ready m)).1 = .ready m
        ∧ ∀ r ∈ (mappings_run ps (.ready m)).2, r = .table m)
    ∧ (∀ ps, (mappings_run ps .poisoned).1 = .poisoned
        ∧ ∀ r ∈ (mappings_run ps .poisoned).2, r = .mappingLoadError) := by
  refine ⟨fun m => rfl, fun p m => rfl, fun msg => rfl, fun p => rfl, fun m ps => ?_, fun ps => ?_⟩
  · induction ps with
    | nil => exact ⟨rfl, by intro r hr; cases hr⟩
    | cons p ps ih =>
      refine ⟨ih.1, ?_⟩
      intro r hr
      rcases List.mem_cons.mp hr with h | h
      · exact h
      · exact ih.2 r h
  · induction ps with
    | nil => exact ⟨rfl, by intro r hr; cases hr⟩
    | cons p ps ih =>
      refine ⟨ih.1, ?_⟩
      intro r hr
      rcases List.mem_cons.mp hr with h | h
      · exact h
      · exact ih.2 r h

/-- C8: `DllMain` always returns `true`; on `DLL_PROCESS_ATTACH` it
spawns exactly one background thread running `main_thread` and never
joins or waits on it; on `DLL_PROCESS_DETACH` it performs no action. -/
theorem DllMain_spec :
    (∀ reason, (DllMain reason).2 = true)
    ∧ DllMain DLL_PROCESS_ATTACH = ([.spawn_main_thread], true)
    ∧ (DllMain DLL_PROCESS_ATTACH).1.count .spawn_main_thread = 1
    ∧ DllAction.join_main_thread ∉ (DllMain DLL_PROCESS_ATTACH).1
    ∧ DllMain DLL_PROCESS_DETACH = ([], true) := by
  refine ⟨fun reason => ?_, rfl, by decide, by decide, rfl⟩
  unfold DllMain
  split <;> rfl

/-- C9: `as_entity` and `as_position` always succeed, perform no
managed-side operation (in particular no allocation), and the
returned wrapper holds the same underlying managed reference as the
input wrapper. -/
theorem reinterpret_same_ref :
    (∀ p : ClientPlayerEntity, p.as_entity = ([], .ok ⟨p.jobj⟩))
    ∧ (∀ v : Vec3d, v.as_position = ([], .ok ⟨v.jobj⟩)) :=
  ⟨fun _ => rfl, fun _ => rfl⟩

/-- C10: `main_thread` is total with respect to client-startup
failure: for every `AllocConsole` result and every `start_client`
result — errors included — it returns normally (outcome `.ok ()`,
never an error or crash), it always reaches `FreeConsole`, and a
`start_client` error is logged rather than propagated. -/
theorem main_thread_total :
    (∀ allocRes startRes, (main_thread allocRes startRes).2 = .ok ())
    ∧ (∀ allocRes startRes, MainAction.freeConsole ∈ (main_thread allocRes startRes).1)
    ∧ (∀ allocRes e, MainAction.logStartError e ∈ (main_thread allocRes (.error e)).1) := by
  refine ⟨fun a s => rfl, fun a s => ?_, fun a e => ?_⟩ <;>
    cases a <;> first
      | (cases s <;> simp [main_thread])
      | simp [main_thread]

end LiquidBounce
